import Mathlib

/-!
Verification of the `vulkan_processor` translation unit
(`src/linux/vulkan_processor/vulkan_processor.c`).

The C file is shallowly embedded: C `double`/`float` values become `ℚ`
(every numeric literal the entry points handle is exactly representable),
C `int` becomes `ℤ`, byte buffers become total functions `ℕ → ℕ`, and the
Vulkan API is modelled by an explicit failure oracle (which checked call
fails) together with an explicit ledger of the per-call resources that are
still live when the call returns.  The compute kernel `image_process.spv`
is a binary artifact that is not part of the sources; it is modelled from
the specification (see `shaderRun`).
-/

/-- C `round` (round half away from zero) on rationals, modelling the
`round` calls on `double` in the source. -/
def roundC (q : ℚ) : ℤ := if 0 ≤ q then ⌊q + 1/2⌋ else ⌈q - 1/2⌉

/-- The per-call GPU resources created by `vk_process_image_internal`:
seven buffers with their backing memory, two staging buffers with their
memory, and the descriptor set. -/
inductive Res
  | inputBuf | inputMem | outputBuf | outputMem | uniformBuf | uniformMem
  | rgbLutBuf | rgbLutMem | redLutBuf | redLutMem | greenLutBuf | greenLutMem
  | blueLutBuf | blueLutMem
  | stagingInBuf | stagingInMem | stagingOutBuf | stagingOutMem
  | descSet
  deriving DecidableEq

/-- The Vulkan calls inside `vk_process_image_internal` whose results the C
code actually checks; the failure oracle decides which of them fail. -/
inductive VkCall
  | createInputBuf | allocInputMem | createOutputBuf | allocOutputMem
  | createUniformBuf | allocUniformMem
  | createRgbLutBuf | createRedLutBuf | createGreenLutBuf | createBlueLutBuf
  | allocRgbLutMem | allocRedLutMem | allocGreenLutMem | allocBlueLutMem
  | beginCmd
  deriving DecidableEq

/-- Result of one processing call: the returned flag, the dimensions of the
produced image, its bytes (0 when no image is produced), the per-call
resources still live on return, and the `processing` guard on return. -/
structure ProcResult where
  success : Bool
  outWidth : ℤ
  outHeight : ℤ
  output : ℕ → ℕ
  live : List Res
  processing : Bool

/-- Output-dimension computation of `vk_process_image_internal`
(lines 455-479): when at least 18 adjustments are supplied the crop
rectangle is read from indices 14-17 (without validation) and each edge is
rounded to pixels independently before subtracting; otherwise the output
size equals the input size. -/
def computeOutputDims (adjustments : List ℚ) (width height : ℤ) : ℤ × ℤ :=
  if 18 ≤ adjustments.length then
    let crop_left := adjustments.getD 14 0
    let crop_top := adjustments.getD 15 0
    let crop_right := adjustments.getD 16 0
    let crop_bottom := adjustments.getD 17 0
    (roundC (crop_right * (width : ℚ)) - roundC (crop_left * (width : ℚ)),
     roundC (crop_bottom * (height : ℚ)) - roundC (crop_top * (height : ℚ)))
  else (width, height)

/-- The 20-float uniform block packed by `vk_process_image_internal`
(lines 753-776): start from zeros, copy `min(adjustment_count, 20)` caller
values positionally, unconditionally overwrite indices 11/12 with the image
dimensions, then write default crop components for the indices the caller
did not supply. -/
def packUniform (adjustments : List ℚ) (width height : ℚ) : List ℚ :=
  let count := adjustments.length
  let params_to_copy := min count 20
  let p1 : ℕ → ℚ := fun i => if i < params_to_copy then adjustments.getD i 0 else 0
  let p2 : ℕ → ℚ := fun i => if i = 11 then width else if i = 12 then height else p1 i
  let p3 : ℕ → ℚ := fun i => if count < 15 ∧ i = 14 then 0 else p2 i
  let p4 : ℕ → ℚ := fun i => if count < 16 ∧ i = 15 then 0 else p3 i
  let p5 : ℕ → ℚ := fun i => if count < 17 ∧ i = 16 then 1 else p4 i
  let p6 : ℕ → ℚ := fun i => if count < 18 ∧ i = 17 then 1 else p5 i
  (List.range 20).map p6

/-- Modelled from the spec: the compute kernel `image_process.spv` is a
precompiled binary that is not under `src/`; only its uniform contract and
its no-op behaviour are specified.  Following the spec, each output pixel
(gx, gy) samples the input pixel (gx + leftPx, gy + topPx) where the crop
offsets are recovered from uniform indices 14/15 times the image size at
indices 11/12, applies the composite RGB tone-curve LUT followed by the
per-channel LUT, and writes alpha 255.  The scalar adjustments at indices
0-10/13 are opaque to this core and their specified neutral element (the
zero vector) is a no-op, so they are modelled as the identity transform.
The model is a total function on byte indices; only indices inside the
output image are meaningful. -/
def shaderRun (uniform : List ℚ) (rgb_lut red_lut green_lut blue_lut : ℕ → ℕ)
    (input : ℕ → ℕ) : ℕ → ℕ := fun k =>
  let widthPx : ℤ := roundC (uniform.getD 11 0)
  let leftPx : ℤ := roundC (uniform.getD 14 0 * uniform.getD 11 0)
  let topPx : ℤ := roundC (uniform.getD 15 0 * uniform.getD 12 0)
  let rightPx : ℤ := roundC (uniform.getD 16 0 * uniform.getD 11 0)
  let croppedWidth : ℕ := (rightPx - leftPx).toNat
  let ch := k % 4
  let p := k / 4
  let gx : ℤ := (p % croppedWidth : ℕ)
  let gy : ℤ := (p / croppedWidth : ℕ)
  if ch = 3 then 255
  else
    let inIndex : ℤ := 3 * ((gy + topPx) * widthPx + (gx + leftPx)) + (ch : ℤ)
    let v := input inIndex.toNat
    if ch = 0 then red_lut (rgb_lut v)
    else if ch = 1 then green_lut (rgb_lut v)
    else blue_lut (rgb_lut v)

/-- The identity tone-curve LUT (`lut[i] = i`), as built on the stack by
`vk_process_image` (lines 410-413). -/
def identityLut : ℕ → ℕ := fun i => i

/-- `vk_process_image_internal` (lines 425-1014).  The sequence of checked
Vulkan calls, the exact set of destroy/free calls on each failure path, and
the treatment of the `processing` guard mirror the C control flow; `fail`
says which checked Vulkan call reports an error.  Each failure branch
returns the created-so-far resources minus exactly those the corresponding
C handler destroys (in the C handler's order). -/
def vk_process_image_internal (fail : VkCall → Bool) (initFlag processing : Bool)
    (input : ℕ → ℕ) (width height : ℤ) (adjustments : List ℚ)
    (rgb_lut red_lut green_lut blue_lut : ℕ → ℕ) : ProcResult :=
  -- if (!initialized) return 0;
  if initFlag = false then
    ⟨false, 0, 0, fun _ => 0, [], processing⟩
  -- if (processing) return 0;   (guard: reject, do not block)
  else if processing = true then
    ⟨false, 0, 0, fun _ => 0, [], processing⟩
  else
    -- processing = 1;
    let dims := computeOutputDims adjustments width height
    let outW := dims.1
    let outH := dims.2
    -- vkCreateBuffer (input): on failure `return 0` with no teardown,
    -- guard left set
    if fail .createInputBuf then ⟨false, outW, outH, fun _ => 0, [], true⟩ else
    let c1 : List Res := [.inputBuf]
    -- vkAllocateMemory (input)
    if fail .allocInputMem then
      ⟨false, outW, outH, fun _ => 0, c1.diff [.inputBuf], true⟩ else
    let c2 := c1 ++ [.inputMem]
    -- vkCreateBuffer (output)
    if fail .createOutputBuf then
      ⟨false, outW, outH, fun _ => 0, c2.diff [.inputBuf, .inputMem], true⟩ else
    let c3 := c2 ++ [.outputBuf]
    -- vkAllocateMemory (output)
    if fail .allocOutputMem then
      ⟨false, outW, outH, fun _ => 0,
        c3.diff [.inputBuf, .inputMem, .outputBuf], true⟩ else
    let c4 := c3 ++ [.outputMem]
    -- vkCreateBuffer (uniform)
    if fail .createUniformBuf then
      ⟨false, outW, outH, fun _ => 0,
        c4.diff [.inputBuf, .inputMem, .outputBuf, .outputMem], true⟩ else
    let c5 := c4 ++ [.uniformBuf]
    -- vkAllocateMemory (uniform)
    if fail .allocUniformMem then
      ⟨false, outW, outH, fun _ => 0,
        c5.diff [.inputBuf, .inputMem, .outputBuf, .outputMem, .uniformBuf],
        true⟩ else
    let c6 := c5 ++ [.uniformMem]
    -- vkCreateBuffer (rgb_lut): from here the handlers also clear the guard
    if fail .createRgbLutBuf then
      ⟨false, outW, outH, fun _ => 0,
        c6.diff [.inputBuf, .inputMem, .outputBuf, .outputMem, .uniformBuf,
                 .uniformMem], false⟩ else
    let c7 := c6 ++ [.rgbLutBuf]
    -- vkCreateBuffer (red_lut)
    if fail .createRedLutBuf then
      ⟨false, outW, outH, fun _ => 0,
        c7.diff [.rgbLutBuf, .inputBuf, .inputMem, .outputBuf, .outputMem,
                 .uniformBuf, .uniformMem], false⟩ else
    let c8 := c7 ++ [.redLutBuf]
    -- vkCreateBuffer (green_lut)
    if fail .createGreenLutBuf then
      ⟨false, outW, outH, fun _ => 0,
        c8.diff [.redLutBuf, .rgbLutBuf, .inputBuf, .inputMem, .outputBuf,
                 .outputMem, .uniformBuf, .uniformMem], false⟩ else
    let c9 := c8 ++ [.greenLutBuf]
    -- vkCreateBuffer (blue_lut)
    if fail .createBlueLutBuf then
      ⟨false, outW, outH, fun _ => 0,
        c9.diff [.greenLutBuf, .redLutBuf, .rgbLutBuf, .inputBuf, .inputMem,
                 .outputBuf, .outputMem, .uniformBuf, .uniformMem], false⟩ else
    let c10 := c9 ++ [.blueLutBuf]
    -- vkAllocateMemory (rgb_lut)
    if fail .allocRgbLutMem then
      ⟨false, outW, outH, fun _ => 0,
        c10.diff [.blueLutBuf, .greenLutBuf, .redLutBuf, .rgbLutBuf, .inputBuf,
                  .inputMem, .outputBuf, .outputMem, .uniformBuf, .uniformMem],
        false⟩ else
    let c11 := c10 ++ [.rgbLutMem]
    -- vkAllocateMemory (red_lut)
    if fail .allocRedLutMem then
      ⟨false, outW, outH, fun _ => 0,
        c11.diff [.rgbLutMem, .blueLutBuf, .greenLutBuf, .redLutBuf, .rgbLutBuf,
                  .inputBuf, .inputMem, .outputBuf, .outputMem, .uniformBuf,
                  .uniformMem], false⟩ else
    let c12 := c11 ++ [.redLutMem]
    -- vkAllocateMemory (green_lut)
    if fail .allocGreenLutMem then
      ⟨false, outW, outH, fun _ => 0,
        c12.diff [.redLutMem, .rgbLutMem, .blueLutBuf, .greenLutBuf, .redLutBuf,
                  .rgbLutBuf, .inputBuf, .inputMem, .outputBuf, .outputMem,
                  .uniformBuf, .uniformMem], false⟩ else
    let c13 := c12 ++ [.greenLutMem]
    -- vkAllocateMemory (blue_lut)
    if fail .allocBlueLutMem then
      ⟨false, outW, outH, fun _ => 0,
        c13.diff [.greenLutMem, .redLutMem, .rgbLutMem, .blueLutBuf,
                  .greenLutBuf, .redLutBuf, .rgbLutBuf, .inputBuf, .inputMem,
                  .outputBuf, .outputMem, .uniformBuf, .uniformMem],
        false⟩ else
    let c14 := c13 ++ [.blueLutMem]
    -- LUT and uniform uploads (map/copy/unmap, results not checked), then
    -- the staging buffers and the descriptor set (results not checked)
    let c15 := c14 ++ [.stagingInBuf, .stagingInMem]
    let c16 := c15 ++ [.stagingOutBuf, .stagingOutMem]
    let c17 := c16 ++ [.descSet]
    -- vkBeginCommandBuffer: the C handler destroys the staging buffers and
    -- the input/output/uniform buffers and memory only
    if fail .beginCmd then
      ⟨false, outW, outH, fun _ => 0,
        c17.diff [.stagingInBuf, .stagingInMem, .stagingOutBuf, .stagingOutMem,
                  .inputBuf, .inputMem, .outputBuf, .outputMem, .uniformBuf,
                  .uniformMem], true⟩ else
    -- record, submit, wait, download (results not checked), then the full
    -- teardown including the LUT buffers and the descriptor set;
    -- processing = 0; return 1
    ⟨true, outW, outH,
      shaderRun (packUniform adjustments (width : ℚ) (height : ℚ))
        rgb_lut red_lut green_lut blue_lut input,
      c17.diff [.stagingInBuf, .stagingInMem, .stagingOutBuf, .stagingOutMem,
                .inputBuf, .inputMem, .outputBuf, .outputMem, .uniformBuf,
                .uniformMem, .rgbLutBuf, .rgbLutMem, .redLutBuf, .redLutMem,
                .greenLutBuf, .greenLutMem, .blueLutBuf, .blueLutMem, .descSet],
      false⟩

/-- `vk_process_image_with_curves` (lines 1017-1035): a direct forward to
`vk_process_image_internal`. -/
def vk_process_image_with_curves (fail : VkCall → Bool) (initFlag processing : Bool)
    (input : ℕ → ℕ) (width height : ℤ) (adjustments : List ℚ)
    (rgb_lut red_lut green_lut blue_lut : ℕ → ℕ) : ProcResult :=
  vk_process_image_internal fail initFlag processing input width height
    adjustments rgb_lut red_lut green_lut blue_lut

/-- The clamping step of `vk_process_image_with_curves_and_crop`
(lines 1056-1059): negative left/top edges are raised to 0 and right/bottom
edges above 1 are lowered to 1. -/
def clampCrop (l t r b : ℚ) : ℚ × ℚ × ℚ × ℚ :=
  (if l < 0 then 0 else l,
   if t < 0 then 0 else t,
   if 1 < r then 1 else r,
   if 1 < b then 1 else b)

/-- Crop validation of `vk_process_image_with_curves_and_crop`
(lines 1056-1066): clamp the edges, then fall back to the full frame only
when the clamped rectangle violates the ordering. -/
def validateCrop (l t r b : ℚ) : ℚ × ℚ × ℚ × ℚ :=
  let c := clampCrop l t r b
  if c.2.2.1 ≤ c.1 ∨ c.2.2.2 ≤ c.2.1 then (0, 0, 1, 1) else c

/-- The 18-float extended adjustment array built by
`vk_process_image_with_curves_and_crop` (lines 1087-1109): memcpy of
`adjustment_count` caller floats, zero-padding up to index 14, then the
overwrites of indices 11/12 with the dimensions and 14-17 with the crop.
Reading the caller list with default 0 models both the memcpy and the
padding loop; the array has 18 slots and the memcpy is in bounds only for
`adjustment_count ≤ 18` (see `extendedWriteIndices`). -/
def extendedAdjustments (adjustments : List ℚ) (width height l t r b : ℚ) : List ℚ :=
  (List.range 18).map fun i =>
    if i = 14 then l
    else if i = 15 then t
    else if i = 16 then r
    else if i = 17 then b
    else if i = 11 then width
    else if i = 12 then height
    else if i < adjustments.length then adjustments.getD i 0
    else 0

/-- Result of `vk_process_image_with_curves_and_crop`: the internal call's
result plus the output dimensions reported through the out-parameters
(which the C code writes before invoking the internal function). -/
structure CropResult where
  res : ProcResult
  outWidth : ℤ
  outHeight : ℤ

/-- `vk_process_image_with_curves_and_crop` (lines 1037-1120): validate the
crop, round each edge to pixels independently and subtract to obtain the
reported output dimensions, build the 18-float extended adjustment array,
and forward to `vk_process_image_internal`. -/
def vk_process_image_with_curves_and_crop (fail : VkCall → Bool)
    (initFlag processing : Bool) (input : ℕ → ℕ) (width height : ℤ)
    (adjustments : List ℚ) (crop_left crop_top crop_right crop_bottom : ℚ)
    (rgb_lut red_lut green_lut blue_lut : ℕ → ℕ) : CropResult :=
  let v := validateCrop crop_left crop_top crop_right crop_bottom
  let l := v.1
  let t := v.2.1
  let r := v.2.2.1
  let b := v.2.2.2
  let crop_left_px := roundC (l * (width : ℚ))
  let crop_top_px := roundC (t * (height : ℚ))
  let crop_right_px := roundC (r * (width : ℚ))
  let crop_bottom_px := roundC (b * (height : ℚ))
  let ow := crop_right_px - crop_left_px
  let oh := crop_bottom_px - crop_top_px
  let ext := extendedAdjustments adjustments (width : ℚ) (height : ℚ) l t r b
  ⟨vk_process_image_internal fail initFlag processing input width height ext
     rgb_lut red_lut green_lut blue_lut, ow, oh⟩

/-- The indices of the 18-slot `extended_adjustments` array written by the
packing step of `vk_process_image_with_curves_and_crop` (lines 1094-1109):
the memcpy writes indices `[0, adjustment_count)`, the padding loop writes
the indices of `[0, 14)` at or above `adjustment_count`, and the fixed
writes hit 11, 12, 14, 15, 16, 17. -/
def extendedWriteIndices (adjustment_count : ℕ) : List ℕ :=
  (List.range adjustment_count)
    ++ (List.range 14).filter (fun i => adjustment_count ≤ i)
    ++ [11, 12, 14, 15, 16, 17]

/-- The process-wide GPU objects created by `vk_init`. -/
inductive GRes
  | inst | deviceObj | commandPool | descSetLayout | pipelineLayoutObj
  | shaderModule | pipelineObj | descPool | commandBuf
  deriving DecidableEq

/-- The steps of `vk_init` whose outcome the C code checks. -/
inductive InitCall
  | createInst | enumDevices | createDevice | createCommandPool
  | createDescSetLayout | createPipelineLayoutStep | findShaderFile
  | createShaderModule | createComputePipelines | createDescriptorPool
  | allocCommandBuffers
  deriving DecidableEq

/-- The process-wide state: the `initialized` flag and the global GPU
objects currently live. -/
structure GlobalState where
  initialized : Bool
  live : List GRes
  deriving DecidableEq

/-- `vk_cleanup` (lines 1126-1164): a no-op unless the `initialized` flag
is set; otherwise destroys every global object and clears the flag. -/
def vk_cleanup (s : GlobalState) : GlobalState :=
  if s.initialized = false then s else ⟨false, []⟩

/-- `vk_init` (lines 76-376).  Mirrors the C control flow: the first four
failure points return without any cleanup; the later ones call
`vk_cleanup` before returning; the `initialized` flag is set only after
every step succeeded.  Idempotent when already initialized. -/
def vk_init (s : GlobalState) (fail : InitCall → Bool) : Bool × GlobalState :=
  if s.initialized = true then (true, s)
  else
    -- vkCreateInstance: on failure nothing was created
    if fail .createInst then (false, s) else
    let s1 : GlobalState := ⟨s.initialized, s.live ++ [.inst]⟩
    -- device enumeration / compute-queue search: plain `return 0`
    if fail .enumDevices then (false, s1) else
    -- vkCreateDevice: plain `return 0`
    if fail .createDevice then (false, s1) else
    let s2 : GlobalState := ⟨s1.initialized, s1.live ++ [.deviceObj]⟩
    -- vkCreateCommandPool: plain `return 0`
    if fail .createCommandPool then (false, s2) else
    let s3 : GlobalState := ⟨s2.initialized, s2.live ++ [.commandPool]⟩
    -- vkCreateDescriptorSetLayout: vk_cleanup(); return 0
    if fail .createDescSetLayout then (false, vk_cleanup s3) else
    let s4 : GlobalState := ⟨s3.initialized, s3.live ++ [.descSetLayout]⟩
    -- vkCreatePipelineLayout: vk_cleanup(); return 0
    if fail .createPipelineLayoutStep then (false, vk_cleanup s4) else
    let s5 : GlobalState := ⟨s4.initialized, s4.live ++ [.pipelineLayoutObj]⟩
    -- shader file probe: vk_cleanup(); return 0
    if fail .findShaderFile then (false, vk_cleanup s5) else
    -- vkCreateShaderModule: vk_cleanup(); return 0
    if fail .createShaderModule then (false, vk_cleanup s5) else
    let s6 : GlobalState := ⟨s5.initialized, s5.live ++ [.shaderModule]⟩
    -- vkCreateComputePipelines: vk_cleanup(); return 0
    if fail .createComputePipelines then (false, vk_cleanup s6) else
    let s7 : GlobalState := ⟨s6.initialized, s6.live ++ [.pipelineObj]⟩
    -- vkCreateDescriptorPool: vk_cleanup(); return 0
    if fail .createDescriptorPool then (false, vk_cleanup s7) else
    let s8 : GlobalState := ⟨s7.initialized, s7.live ++ [.descPool]⟩
    -- vkAllocateCommandBuffers: vk_cleanup(); return 0
    if fail .allocCommandBuffers then (false, vk_cleanup s8) else
    let s9 : GlobalState := ⟨s8.initialized, s8.live ++ [.commandBuf]⟩
    -- initialized = 1; return 1
    (true, ⟨true, s9.live⟩)

/-- The all-success failure oracle for per-call Vulkan calls. -/
def noFail : VkCall → Bool := fun _ => false

/-- The oracle that fails exactly one per-call Vulkan call. -/
def failOnly (c : VkCall) : VkCall → Bool := fun x => decide (x = c)

/-- The all-success failure oracle for `vk_init` steps. -/
def noInitFail : InitCall → Bool := fun _ => false

/-- The oracle that fails exactly one `vk_init` step. -/
def initFailOnly (c : InitCall) : InitCall → Bool := fun x => decide (x = c)

/-! ### Helper lemmas -/

theorem roundC_intCast (n : ℤ) : roundC (n : ℚ) = n := by
  unfold roundC
  split_ifs with h
  · rw [Int.floor_int_add]; norm_num
  · rw [sub_eq_add_neg, add_comm, Int.ceil_add_int]; norm_num

theorem roundC_zero : roundC 0 = 0 := by
  simpa using roundC_intCast 0

theorem getD_map_range (f : ℕ → ℚ) (n i : ℕ) (h : i < n) :
    ((List.range n).map f).getD i 0 = f i := by
  rw [List.getD_eq_getElem?_getD, List.getElem?_map, List.getElem?_range h]
  rfl

theorem getD_replicate_zero (n i : ℕ) : (List.replicate n (0 : ℚ)).getD i 0 = 0 := by
  rw [List.getD_eq_getElem?_getD, List.getElem?_replicate]
  split_ifs <;> rfl

theorem computeOutputDims_of_lt (adjustments : List ℚ) (width height : ℤ)
    (hlen : adjustments.length < 18) :
    computeOutputDims adjustments width height = (width, height) := by
  unfold computeOutputDims
  rw [if_neg (by omega)]

theorem internal_flags_of_success (fail : VkCall → Bool) (initFlag processing : Bool)
    (input : ℕ → ℕ) (width height : ℤ) (adjustments : List ℚ)
    (rgb_lut red_lut green_lut blue_lut : ℕ → ℕ)
    (hs : (vk_process_image_internal fail initFlag processing input width height
      adjustments rgb_lut red_lut green_lut blue_lut).success = true) :
    initFlag = true ∧ processing = false := by
  cases initFlag with
  | false => exact absurd hs (Bool.false_ne_true)
  | true =>
    cases processing with
    | true => exact absurd hs (Bool.false_ne_true)
    | false => exact ⟨rfl, rfl⟩

theorem internal_outDims (fail : VkCall → Bool)
    (input : ℕ → ℕ) (width height : ℤ) (adjustments : List ℚ)
    (rgb_lut red_lut green_lut blue_lut : ℕ → ℕ) :
    (vk_process_image_internal fail true false input width height
      adjustments rgb_lut red_lut green_lut blue_lut).outWidth
        = (computeOutputDims adjustments width height).1 ∧
    (vk_process_image_internal fail true false input width height
      adjustments rgb_lut red_lut green_lut blue_lut).outHeight
        = (computeOutputDims adjustments width height).2 := by
  simp only [vk_process_image_internal, apply_ite ProcResult.outWidth,
    apply_ite ProcResult.outHeight]
  norm_num

/-! ### Claim theorems -/

/-- Claim C2 (code_bug evidence): when `vkBeginCommandBuffer` fails after
every buffer and memory creation succeeded, the call returns failure but
leaves the four LUT buffers, their four memory allocations, and the
descriptor set live — the claimed complete unwinding does not happen on
this path. -/
theorem begin_cmd_failure_leaks_lut_resources :
    (vk_process_image_internal (failOnly .beginCmd) true false (fun _ => 0) 1 1 []
      identityLut identityLut identityLut identityLut).success = false ∧
    (vk_process_image_internal (failOnly .beginCmd) true false (fun _ => 0) 1 1 []
      identityLut identityLut identityLut identityLut).live =
      [.rgbLutBuf, .redLutBuf, .greenLutBuf, .blueLutBuf, .rgbLutMem, .redLutMem,
       .greenLutMem, .blueLutMem, .descSet] := by
  decide

/-- Claim C3 (code_bug evidence): when the very first checked Vulkan call
(`vkCreateBuffer` for the input buffer) fails, the call returns failure
with the `processing` guard still set, and a subsequent processing call —
with no call in flight — is rejected because of it. -/
theorem early_failure_leaves_guard_set :
    (vk_process_image_internal (failOnly .createInputBuf) true false (fun _ => 0) 1 1 []
      identityLut identityLut identityLut identityLut).success = false ∧
    (vk_process_image_internal (failOnly .createInputBuf) true false (fun _ => 0) 1 1 []
      identityLut identityLut identityLut identityLut).processing = true ∧
    (vk_process_image_internal noFail true
      (vk_process_image_internal (failOnly .createInputBuf) true false (fun _ => 0) 1 1 []
        identityLut identityLut identityLut identityLut).processing
      (fun _ => 0) 1 1 [] identityLut identityLut identityLut identityLut).success
      = false := by
  decide

/-- Claim C7: a processing call invoked while the in-flight guard is set
returns failure immediately, creates no per-call GPU resources, and leaves
the guard (the in-flight call's state) untouched. -/
theorem busy_reject_no_effects (fail : VkCall → Bool) (initFlag processing : Bool)
    (input : ℕ → ℕ) (width height : ℤ) (adjustments : List ℚ)
    (rgb_lut red_lut green_lut blue_lut : ℕ → ℕ)
    (hp : processing = true) :
    (vk_process_image_internal fail initFlag processing input width height
      adjustments rgb_lut red_lut green_lut blue_lut).success = false ∧
    (vk_process_image_internal fail initFlag processing input width height
      adjustments rgb_lut red_lut green_lut blue_lut).live = [] ∧
    (vk_process_image_internal fail initFlag processing input width height
      adjustments rgb_lut red_lut green_lut blue_lut).processing = true := by
  subst hp
  cases initFlag <;> simp [vk_process_image_internal]

/-- Witness for C7 at a concrete busy state. -/
theorem busy_reject_no_effects_w :
    (true = true) ∧
    ((vk_process_image_internal noFail true true (fun _ => 0) 4 4 []
       identityLut identityLut identityLut identityLut).success = false ∧
     (vk_process_image_internal noFail true true (fun _ => 0) 4 4 []
       identityLut identityLut identityLut identityLut).live = [] ∧
     (vk_process_image_internal noFail true true (fun _ => 0) 4 4 []
       identityLut identityLut identityLut identityLut).processing = true) :=
  ⟨rfl, busy_reject_no_effects noFail true true (fun _ => 0) 4 4 []
    identityLut identityLut identityLut identityLut rfl⟩

/-- Claim C10: every index the packing step of
`vk_process_image_with_curves_and_crop` writes into the 18-slot
`extended_adjustments` array is in bounds exactly when
`adjustment_count ≤ 18`; the function performs the copy for any count, so
this is an unenforced precondition. -/
theorem extended_pack_in_bounds_iff (adjustment_count : ℕ) :
    (∀ i ∈ extendedWriteIndices adjustment_count, i < 18) ↔ adjustment_count ≤ 18 := by
  unfold extendedWriteIndices
  constructor
  · intro h
    by_contra hc
    have h18 := h 18 (by simp; omega)
    omega
  · intro h i hi
    simp at hi
    rcases hi with hi | hi | hi <;> omega

/-- Claim C9: `vk_cleanup` is a no-op unless the `initialized` flag is set,
and a failed `vk_init` never sets that flag; hence after any failed
`vk_init` (from the uninitialized state) the flag is still clear and a
`vk_cleanup` call destroys nothing — every global object the failed init
created stays live. -/
theorem init_failure_cleanup_noop (fail : InitCall → Bool)
    (h : (vk_init ⟨false, []⟩ fail).1 = false) :
    (vk_init ⟨false, []⟩ fail).2.initialized = false ∧
    vk_cleanup (vk_init ⟨false, []⟩ fail).2 = (vk_init ⟨false, []⟩ fail).2 := by
  cases h1 : fail InitCall.createInst with
  | true => simp [vk_init, h1, vk_cleanup]
  | false =>
  cases h2 : fail InitCall.enumDevices with
  | true => simp [vk_init, h1, h2, vk_cleanup]
  | false =>
  cases h3 : fail InitCall.createDevice with
  | true => simp [vk_init, h1, h2, h3, vk_cleanup]
  | false =>
  cases h4 : fail InitCall.createCommandPool with
  | true => simp [vk_init, h1, h2, h3, h4, vk_cleanup]
  | false =>
  cases h5 : fail InitCall.createDescSetLayout with
  | true => simp [vk_init, h1, h2, h3, h4, h5, vk_cleanup]
  | false =>
  cases h6 : fail InitCall.createPipelineLayoutStep with
  | true => simp [vk_init, h1, h2, h3, h4, h5, h6, vk_cleanup]
  | false =>
  cases h7 : fail InitCall.findShaderFile with
  | true => simp [vk_init, h1, h2, h3, h4, h5, h6, h7, vk_cleanup]
  | false =>
  cases h8 : fail InitCall.createShaderModule with
  | true => simp [vk_init, h1, h2, h3, h4, h5, h6, h7, h8, vk_cleanup]
  | false =>
  cases h9 : fail InitCall.createComputePipelines with
  | true => simp [vk_init, h1, h2, h3, h4, h5, h6, h7, h8, h9, vk_cleanup]
  | false =>
  cases h10 : fail InitCall.createDescriptorPool with
  | true => simp [vk_init, h1, h2, h3, h4, h5, h6, h7, h8, h9, h10, vk_cleanup]
  | false =>
  cases h11 : fail InitCall.allocCommandBuffers with
  | true => simp [vk_init, h1, h2, h3, h4, h5, h6, h7, h8, h9, h10, h11, vk_cleanup]
  | false =>
    simp [vk_init, h1, h2, h3, h4, h5, h6, h7, h8, h9, h10, h11] at h

/-- Witness for C9: `vk_init` failing at pipeline creation has created the
instance, device, command pool, both layouts and the shader module; the
theorem applies and those objects are indeed still live. -/
theorem init_failure_cleanup_noop_w :
    ((vk_init ⟨false, []⟩ (initFailOnly .createComputePipelines)).1 = false) ∧
    ((vk_init ⟨false, []⟩ (initFailOnly .createComputePipelines)).2.initialized = false ∧
     vk_cleanup (vk_init ⟨false, []⟩ (initFailOnly .createComputePipelines)).2 =
       (vk_init ⟨false, []⟩ (initFailOnly .createComputePipelines)).2) :=
  ⟨by decide, init_failure_cleanup_noop (initFailOnly .createComputePipelines) (by decide)⟩

/-- Claim C1 (counterexample): `vk_process_image_with_curves` does crop
when 18 adjustment values are supplied — with crop entries (0, 0, 1/2, 1/2)
at indices 14-17 a successful call on a 4x4 input reports a 2x2 output. -/
theorem with_curves_crops_at_18_adjustments :
    (vk_process_image_with_curves noFail true false (fun _ => 0) 4 4
      [0, 0, 0, 0, 0, 0, 0, 0, 0, 0, 0, 0, 0, 0, 0, 0, 1/2, 1/2]
      identityLut identityLut identityLut identityLut).success = true ∧
    (vk_process_image_with_curves noFail true false (fun _ => 0) 4 4
      [0, 0, 0, 0, 0, 0, 0, 0, 0, 0, 0, 0, 0, 0, 0, 0, 1/2, 1/2]
      identityLut identityLut identityLut identityLut).outWidth = 2 ∧
    (2 : ℤ) ≠ 4 := by
  refine ⟨by decide, ?_, by decide⟩
  norm_num [vk_process_image_with_curves, vk_process_image_internal, noFail,
    computeOutputDims, List.getD, roundC]

/-- Claim C1 (amended): a successful `vk_process_image_with_curves` call
with fewer than 18 adjustment values reports output dimensions equal to the
input dimensions. -/
theorem with_curves_dims_eq_input_of_lt_18 (fail : VkCall → Bool)
    (initFlag processing : Bool) (input : ℕ → ℕ) (width height : ℤ)
    (adjustments : List ℚ) (rgb_lut red_lut green_lut blue_lut : ℕ → ℕ)
    (hlen : adjustments.length < 18)
    (hs : (vk_process_image_with_curves fail initFlag processing input width height
      adjustments rgb_lut red_lut green_lut blue_lut).success = true) :
    (vk_process_image_with_curves fail initFlag processing input width height
      adjustments rgb_lut red_lut green_lut blue_lut).outWidth = width ∧
    (vk_process_image_with_curves fail initFlag processing input width height
      adjustments rgb_lut red_lut green_lut blue_lut).outHeight = height := by
  simp only [vk_process_image_with_curves] at hs ⊢
  obtain ⟨h1, h2⟩ := internal_flags_of_success fail initFlag processing input width
    height adjustments rgb_lut red_lut green_lut blue_lut hs
  subst h1
  subst h2
  have hd := computeOutputDims_of_lt adjustments width height hlen
  have ho := internal_outDims fail input width height adjustments
    rgb_lut red_lut green_lut blue_lut
  rw [ho.1, ho.2, hd]
  exact ⟨rfl, rfl⟩

/-- Witness for C1 (amended) at a concrete successful call. -/
theorem with_curves_dims_eq_input_of_lt_18_w :
    (List.length ([] : List ℚ) < 18 ∧
     (vk_process_image_with_curves noFail true false (fun _ => 0) 4 4 []
       identityLut identityLut identityLut identityLut).success = true) ∧
    ((vk_process_image_with_curves noFail true false (fun _ => 0) 4 4 []
       identityLut identityLut identityLut identityLut).outWidth = 4 ∧
     (vk_process_image_with_curves noFail true false (fun _ => 0) 4 4 []
       identityLut identityLut identityLut identityLut).outHeight = 4) :=
  ⟨⟨by decide, by decide⟩,
   with_curves_dims_eq_input_of_lt_18 noFail true false (fun _ => 0) 4 4 []
     identityLut identityLut identityLut identityLut (by decide) (by decide)⟩

/-- Claim C4 (counterexample): a crop rectangle violating `0 ≤ left` is not
repaired to the full frame — `vk_process_image_with_curves_and_crop` merely
clamps the offending edge, so crop (-1/2, 0, 1/2, 1) on a 4x4 input reports
output width 2, not the input width 4. -/
theorem out_of_range_crop_clamped_not_full_frame :
    ((-1/2 : ℚ) < 0) ∧
    (vk_process_image_with_curves_and_crop noFail true false (fun _ => 0) 4 4 []
      (-1/2) 0 (1/2) 1 identityLut identityLut identityLut identityLut).outWidth = 2 ∧
    (2 : ℤ) ≠ 4 := by
  refine ⟨by norm_num, ?_, by decide⟩
  norm_num [vk_process_image_with_curves_and_crop, validateCrop, clampCrop, roundC]

/-- Claim C4 (amended): edges outside [0,1] are clamped into range; the
effective crop falls back to the full frame (0,0,1,1) — and the reported
output dimensions equal the input dimensions — exactly when the clamped
rectangle violates the ordering (left ≥ right or top ≥ bottom), which in
particular covers every originally inverted rectangle. -/
theorem degenerate_clamped_crop_full_frame (l t r b : ℚ) (width height : ℤ)
    (fail : VkCall → Bool) (initFlag processing : Bool) (input : ℕ → ℕ)
    (adjustments : List ℚ) (rgb_lut red_lut green_lut blue_lut : ℕ → ℕ)
    (hdeg : (clampCrop l t r b).2.2.1 ≤ (clampCrop l t r b).1 ∨
            (clampCrop l t r b).2.2.2 ≤ (clampCrop l t r b).2.1) :
    validateCrop l t r b = (0, 0, 1, 1) ∧
    (vk_process_image_with_curves_and_crop fail initFlag processing input width height
      adjustments l t r b rgb_lut red_lut green_lut blue_lut).outWidth = width ∧
    (vk_process_image_with_curves_and_crop fail initFlag processing input width height
      adjustments l t r b rgb_lut red_lut green_lut blue_lut).outHeight = height := by
  have hv : validateCrop l t r b = (0, 0, 1, 1) := by
    simp only [validateCrop]
    rw [if_pos hdeg]
  refine ⟨hv, ?_, ?_⟩
  · simp only [vk_process_image_with_curves_and_crop, hv]
    rw [one_mul, zero_mul, roundC_zero, roundC_intCast, sub_zero]
  · simp only [vk_process_image_with_curves_and_crop, hv]
    rw [one_mul, zero_mul, roundC_zero, roundC_intCast, sub_zero]

/-- Witness for C4 (amended) at the inverted rectangle (0.8, 0.2, 0.3, 0.9). -/
theorem degenerate_clamped_crop_full_frame_w :
    ((clampCrop (4/5) (1/5) (3/10) (9/10)).2.2.1 ≤ (clampCrop (4/5) (1/5) (3/10) (9/10)).1 ∨
     (clampCrop (4/5) (1/5) (3/10) (9/10)).2.2.2 ≤ (clampCrop (4/5) (1/5) (3/10) (9/10)).2.1) ∧
    (validateCrop (4/5) (1/5) (3/10) (9/10) = (0, 0, 1, 1) ∧
     (vk_process_image_with_curves_and_crop noFail true false (fun _ => 0) 4 4 []
       (4/5) (1/5) (3/10) (9/10) identityLut identityLut identityLut identityLut).outWidth = 4 ∧
     (vk_process_image_with_curves_and_crop noFail true false (fun _ => 0) 4 4 []
       (4/5) (1/5) (3/10) (9/10) identityLut identityLut identityLut identityLut).outHeight = 4) :=
  ⟨Or.inl (by norm_num [clampCrop]),
   degenerate_clamped_crop_full_frame (4/5) (1/5) (3/10) (9/10) 4 4 noFail true false
     (fun _ => 0) [] identityLut identityLut identityLut identityLut
     (Or.inl (by norm_num [clampCrop]))⟩

/-- Claim C5: for a valid crop rectangle (0 ≤ l < r ≤ 1, 0 ≤ t < b ≤ 1),
`vk_process_image_with_curves_and_crop` reports output width
round(r*W) - round(l*W) and output height round(b*H) - round(t*H), each edge
rounded to the nearest integer independently before subtracting. -/
theorem valid_crop_dims_round_then_subtract (l t r b : ℚ) (width height : ℤ)
    (fail : VkCall → Bool) (initFlag processing : Bool) (input : ℕ → ℕ)
    (adjustments : List ℚ) (rgb_lut red_lut green_lut blue_lut : ℕ → ℕ)
    (hl : 0 ≤ l) (hlr : l < r) (hr : r ≤ 1)
    (ht : 0 ≤ t) (htb : t < b) (hb : b ≤ 1) :
    (vk_process_image_with_curves_and_crop fail initFlag processing input width height
      adjustments l t r b rgb_lut red_lut green_lut blue_lut).outWidth =
        roundC (r * (width : ℚ)) - roundC (l * (width : ℚ)) ∧
    (vk_process_image_with_curves_and_crop fail initFlag processing input width height
      adjustments l t r b rgb_lut red_lut green_lut blue_lut).outHeight =
        roundC (b * (height : ℚ)) - roundC (t * (height : ℚ)) := by
  have hc : clampCrop l t r b = (l, t, r, b) := by
    unfold clampCrop
    rw [if_neg (not_lt.mpr hl), if_neg (not_lt.mpr ht),
        if_neg (not_lt.mpr hr), if_neg (not_lt.mpr hb)]
  have hv : validateCrop l t r b = (l, t, r, b) := by
    simp only [validateCrop, hc]
    rw [if_neg]
    simp only [not_or, not_le]
    exact ⟨hlr, htb⟩
  constructor <;> simp only [vk_process_image_with_curves_and_crop, hv]

/-- Witness for C5: the spec's end-to-end scenario — crop
(0.25, 0.25, 0.75, 0.75) on a 4x4 input yields output dimensions 2x2. -/
theorem valid_crop_dims_round_then_subtract_w :
    ((0:ℚ) ≤ 1/4 ∧ (1/4:ℚ) < 3/4 ∧ (3/4:ℚ) ≤ 1) ∧
    (vk_process_image_with_curves_and_crop noFail true false (fun _ => 0) 4 4 []
      (1/4) (1/4) (3/4) (3/4) identityLut identityLut identityLut identityLut).outWidth = 2 ∧
    (vk_process_image_with_curves_and_crop noFail true false (fun _ => 0) 4 4 []
      (1/4) (1/4) (3/4) (3/4) identityLut identityLut identityLut identityLut).outHeight = 2 := by
  have h := valid_crop_dims_round_then_subtract (1/4) (1/4) (3/4) (3/4) 4 4 noFail true
    false (fun _ => 0) [] identityLut identityLut identityLut identityLut
    (by norm_num) (by norm_num) (by norm_num) (by norm_num) (by norm_num) (by norm_num)
  refine ⟨⟨by norm_num, by norm_num, by norm_num⟩, ?_, ?_⟩
  · rw [h.1]; norm_num [roundC]
  · rw [h.2]; norm_num [roundC]

/-- Claim C6: the packed uniform block always holds exactly 20 floats, and
when fewer than 20 adjustments are supplied it equals the supplied values
positionally with a zero tail, except index 11 is always the width, index
12 always the height, and indices 14-17 are the resolved crop (the supplied
value when present, else the defaults 0, 0, 1, 1). -/
theorem uniform_pack_spec (adjustments : List ℚ) (width height : ℚ) :
    (packUniform adjustments width height).length = 20 ∧
    (adjustments.length < 20 →
      ∀ i, i < 20 →
        (packUniform adjustments width height).getD i 0 =
          if i = 11 then width
          else if i = 12 then height
          else if i = 14 then
            (if 14 < adjustments.length then adjustments.getD 14 0 else 0)
          else if i = 15 then
            (if 15 < adjustments.length then adjustments.getD 15 0 else 0)
          else if i = 16 then
            (if 16 < adjustments.length then adjustments.getD 16 0 else 1)
          else if i = 17 then
            (if 17 < adjustments.length then adjustments.getD 17 0 else 1)
          else if i < adjustments.length then adjustments.getD i 0
          else 0) := by
  constructor
  · simp [packUniform]
  · intro hlen i hi
    simp only [packUniform]
    rw [getD_map_range _ 20 i hi]
    by_cases e11 : i = 11
    · subst e11; norm_num
    by_cases e12 : i = 12
    · subst e12; norm_num
    by_cases e14 : i = 14
    · subst e14; norm_num
      split_ifs <;> first | rfl | omega | (intro h; first | rfl | omega)
    by_cases e15 : i = 15
    · subst e15; norm_num
      split_ifs <;> first | rfl | omega | (intro h; first | rfl | omega)
    by_cases e16 : i = 16
    · subst e16; norm_num
      split_ifs <;> first | rfl | omega | (intro h; first | rfl | omega)
    by_cases e17 : i = 17
    · subst e17; norm_num
      split_ifs <;> first | rfl | omega | (intro h; first | rfl | omega)
    simp only [e11, e12, e14, e15, e16, e17, false_and, and_false, if_false,
      ite_false, if_neg]
    split_ifs <;> first | rfl | omega

/-- Witness for C6 at the concrete two-element adjustment vector [3, 5]:
slot 16 (crop right, unsupplied) resolves to the default 1. -/
theorem uniform_pack_spec_w :
    ([3, 5] : List ℚ).length < 20 ∧ (16 : ℕ) < 20 ∧
    (packUniform [3, 5] 7 9).getD 16 0 = 1 := by
  refine ⟨by norm_num, by norm_num, ?_⟩
  have h := (uniform_pack_spec [3, 5] 7 9).2 (by norm_num) 16 (by norm_num)
  rw [h]
  norm_num

theorem pack_replicate_zero_entries (n : ℕ) (hn : n < 17) (w h : ℚ) :
    (packUniform (List.replicate n 0) w h).getD 11 0 = w ∧
    (packUniform (List.replicate n 0) w h).getD 12 0 = h ∧
    (packUniform (List.replicate n 0) w h).getD 14 0 = 0 ∧
    (packUniform (List.replicate n 0) w h).getD 15 0 = 0 ∧
    (packUniform (List.replicate n 0) w h).getD 16 0 = 1 := by
  refine ⟨?_, ?_, ?_, ?_, ?_⟩ <;>
    (simp only [packUniform]; rw [getD_map_range _ 20 _ (by omega)]) <;>
    norm_num [List.length_replicate, getD_replicate_zero, hn] <;>
    (intro h1; split_ifs <;> first | rfl | omega | exact getD_replicate_zero n _)

theorem shaderRun_passthrough (u : List ℚ) (width height : ℤ) (input : ℕ → ℕ)
    (x y c : ℕ)
    (h11 : u.getD 11 0 = (width : ℚ)) (h12 : u.getD 12 0 = (height : ℚ))
    (h14 : u.getD 14 0 = 0) (h15 : u.getD 15 0 = 0) (h16 : u.getD 16 0 = 1)
    (hx : x < width.toNat) (hc : c < 3) :
    shaderRun u identityLut identityLut identityLut identityLut input
      (4 * (y * width.toNat + x) + c) = input (3 * (y * width.toNat + x) + c) ∧
    shaderRun u identityLut identityLut identityLut identityLut input
      (4 * (y * width.toNat + x) + 3) = 255 := by
  have hwz : (0 : ℤ) ≤ width := by omega
  obtain ⟨W, rfl⟩ : ∃ W : ℕ, width = (W : ℤ) :=
    ⟨width.toNat, (Int.toNat_of_nonneg hwz).symm⟩
  rw [Int.toNat_natCast] at hx ⊢
  have hW : 0 < W := by omega
  constructor
  · simp only [shaderRun, h11, h12, h14, h15, h16, zero_mul, one_mul,
      roundC_zero, roundC_intCast, sub_zero, add_zero, identityLut,
      Int.toNat_natCast]
    have hmod : (4 * (y * W + x) + c) % 4 = c := by omega
    have hdiv : (4 * (y * W + x) + c) / 4 = y * W + x := by omega
    rw [hmod, hdiv]
    rw [if_neg (by omega : ¬ c = 3)]
    have hgx : (y * W + x) % W = x := by
      rw [Nat.mul_comm y, Nat.mul_add_mod, Nat.mod_eq_of_lt hx]
    have hgy : (y * W + x) / W = y := by
      rw [Nat.mul_comm y, Nat.mul_add_div hW, Nat.div_eq_of_lt hx, Nat.add_zero]
    rw [hgx, hgy]
    have hcast : (3 * ((y : ℤ) * (W : ℤ) + (x : ℤ)) + (c : ℤ)) =
        ((3 * (y * W + x) + c : ℕ) : ℤ) := by
      push_cast
      ring
    rw [hcast, Int.toNat_natCast]
    split_ifs <;> rfl
  · simp only [shaderRun, h11, h12, h14, h15, h16, zero_mul, one_mul,
      roundC_zero, roundC_intCast, sub_zero, add_zero, identityLut,
      Int.toNat_natCast]
    have hmod : (4 * (y * W + x) + 3) % 4 = 3 := by omega
    rw [hmod]
    rw [if_pos rfl]

/-- Claim C8 (counterexample): a zero adjustment vector of length 18 makes
`vk_process_image_with_curves` treat indices 14-17 as the crop (0,0,0,0),
so a successful call on a 1x1 input reports a 0x0 output — not an image of
the input dimensions. -/
theorem with_curves_zero_adjustments_len18_zero_dims :
    (vk_process_image_with_curves noFail true false (fun _ => 55) 1 1
      (List.replicate 18 0) identityLut identityLut identityLut identityLut).success
        = true ∧
    (vk_process_image_with_curves noFail true false (fun _ => 55) 1 1
      (List.replicate 18 0) identityLut identityLut identityLut identityLut).outWidth
        = 0 ∧
    (0 : ℤ) ≠ 1 := by
  refine ⟨by decide, ?_, by decide⟩
  have ho := internal_outDims noFail (fun _ => 55) 1 1 (List.replicate 18 0)
    identityLut identityLut identityLut identityLut
  have hd : computeOutputDims (List.replicate 18 0) 1 1 = (0, 0) := by
    norm_num [computeOutputDims, getD_replicate_zero, roundC]
  exact ho.1.trans (by rw [hd])

/-- Claim C8 (amended): for every input image, `vk_process_image_with_curves`
with four identity LUTs and a zero adjustment vector of fewer than 17
entries (so the resolved crop defaults to the full frame) succeeds, reports
the input dimensions, and produces the pass-through RGBA image: every pixel
keeps its input R, G, B bytes and gets alpha 255. -/
theorem identity_luts_zero_adjustments_passthrough
    (input : ℕ → ℕ) (width height : ℤ) (n : ℕ) (x y c : ℕ)
    (hn : n < 17) (hx : x < width.toNat) (hy : y < height.toNat) (hc : c < 3) :
    (vk_process_image_with_curves noFail true false input width height
      (List.replicate n 0) identityLut identityLut identityLut identityLut).success
        = true ∧
    (vk_process_image_with_curves noFail true false input width height
      (List.replicate n 0) identityLut identityLut identityLut identityLut).outWidth
        = width ∧
    (vk_process_image_with_curves noFail true false input width height
      (List.replicate n 0) identityLut identityLut identityLut identityLut).outHeight
        = height ∧
    (vk_process_image_with_curves noFail true false input width height
      (List.replicate n 0) identityLut identityLut identityLut identityLut).output
        (4 * (y * width.toNat + x) + c) = input (3 * (y * width.toNat + x) + c) ∧
    (vk_process_image_with_curves noFail true false input width height
      (List.replicate n 0) identityLut identityLut identityLut identityLut).output
        (4 * (y * width.toNat + x) + 3) = 255 := by
  have hpack := pack_replicate_zero_entries n hn (width : ℚ) (height : ℚ)
  have hout : (vk_process_image_with_curves noFail true false input width height
      (List.replicate n 0) identityLut identityLut identityLut identityLut).output =
      shaderRun (packUniform (List.replicate n 0) (width : ℚ) (height : ℚ))
        identityLut identityLut identityLut identityLut input := rfl
  have hs := shaderRun_passthrough _ width height input x y c hpack.1 hpack.2.1
    hpack.2.2.1 hpack.2.2.2.1 hpack.2.2.2.2 hx hc
  have ho := internal_outDims noFail input width height (List.replicate n 0)
    identityLut identityLut identityLut identityLut
  have hd := computeOutputDims_of_lt (List.replicate n 0) width height
    (by simp; omega)
  refine ⟨rfl, ho.1.trans (by rw [hd]), ho.2.trans (by rw [hd]), ?_, ?_⟩
  · rw [hout]; exact hs.1
  · rw [hout]; exact hs.2

/-- Witness for C8 (amended) on a concrete 2x2 image with input byte k
holding value k + 10: pixel (1,1)'s blue byte passes through and its alpha
is 255. -/
theorem identity_luts_zero_adjustments_passthrough_w :
    ((0 : ℕ) < 17 ∧ (1 : ℕ) < (2 : ℤ).toNat ∧ (2 : ℕ) < 3) ∧
    ((vk_process_image_with_curves noFail true false (fun k => k + 10) 2 2
      (List.replicate 0 0) identityLut identityLut identityLut identityLut).success
        = true ∧
     (vk_process_image_with_curves noFail true false (fun k => k + 10) 2 2
      (List.replicate 0 0) identityLut identityLut identityLut identityLut).outWidth
        = 2 ∧
     (vk_process_image_with_curves noFail true false (fun k => k + 10) 2 2
      (List.replicate 0 0) identityLut identityLut identityLut identityLut).outHeight
        = 2 ∧
     (vk_process_image_with_curves noFail true false (fun k => k + 10) 2 2
      (List.replicate 0 0) identityLut identityLut identityLut identityLut).output 14
        = 21 ∧
     (vk_process_image_with_curves noFail true false (fun k => k + 10) 2 2
      (List.replicate 0 0) identityLut identityLut identityLut identityLut).output 15
        = 255) :=
  ⟨⟨by decide, by decide, by decide⟩,
   identity_luts_zero_adjustments_passthrough (fun k => k + 10) 2 2 0 1 1 2
     (by decide) (by decide) (by decide) (by decide)⟩
